import Mathlib

/-!
Verification of the Ctrl-F CDS toolbox applications.

The repository consists of two scripts, `Ctrl_F_CDS_toolbox.py` (2m
temperature) and `Ctrl_F_Precipitation.py` (total precipitation).  Each
declares a parameterized map application: a dropdown selects a year, the
application function retrieves monthly reanalysis data for that year from
the catalogue, averages it over the time axis, and renders the mean as a
livemap whose click handler launches a child view (`plot_time_series`)
charting the monthly series at the clicked point.

The toolbox library `cdstoolbox` (`ct.catalogue.retrieve`,
`ct.cube.average`, `ct.geo.extract_point`, `ct.chart.line`,
`ct.livemap.plot`, the widget decorators) is an external collaborator that
is not part of the repository; its primitives are modelled here from the
specification.  Every call into the data-retrieval collaborator is
instrumented with a trace event, so that claims about which operations do
and do not issue catalogue queries become provable statements about
traces.
-/

/-- A catalogue query, as built literally by both application functions:
the dictionary passed to `ct.catalogue.retrieve` with keys
`product_type`, `variable` (a list), `year`, `month` (a list) and
`time`. -/
structure Query where
  product_type : String
  vars : List String
  year : Int
  month : List String
  time : String
deriving DecidableEq

/-- Modelled from the spec: a `MonthlyDataset` is a gridded time-indexed
dataset returned by the DataRetrievalClient — a 3-D grid indexed by
(latitude, longitude, month-within-year) holding scalar physical values,
with a spatial extent.  The point sampling performed by the toolbox at a
coordinate is abstracted as the function `val`. -/
structure MonthlyDataset where
  latMin : ℚ
  latMax : ℚ
  lonMin : ℚ
  lonMax : ℚ
  months : List Nat
  val : ℚ → ℚ → Nat → ℚ

/-- Modelled from the spec: an `AnnualMeanGrid` is a 2-D grid
(latitude, longitude) with the same spatial extent as the dataset it was
derived from. -/
structure AnnualMeanGrid where
  latMin : ℚ
  latMax : ℚ
  lonMin : ℚ
  lonMax : ℚ
  val : ℚ → ℚ → ℚ

/-- An ordered sequence of (month, value) pairs extracted from a
`MonthlyDataset` at a click location. -/
structure PointSeries where
  points : List (Nat × ℚ)
deriving DecidableEq

/-- The figure produced by `ct.chart.line` from a point series. -/
structure Figure where
  series : PointSeries
deriving DecidableEq

/-- Errors raised by the toolbox collaborators on a click:
`outOfBounds` when the clicked location falls outside the spatial extent
of the dataset, `keyError k` when the location mapping is missing the
key `k`. -/
inductive ToolboxError where
  | outOfBounds : ToolboxError
  | keyError : String → ToolboxError
deriving DecidableEq

/-- The error raised at the input boundary when a year outside the
dropdown values is selected. -/
inductive SelectionError where
  | invalidSelectionError : SelectionError
deriving DecidableEq

/-- A trace event recording one call into the data-retrieval
collaborator (`ct.catalogue.retrieve`). -/
inductive TraceEvent where
  | retrieveCall : String → Query → TraceEvent
deriving DecidableEq

/-- The external catalogue: a deterministic mapping from a dataset id
and a query to the gridded dataset it returns.  Retrieval is the only
I/O boundary of the program; it is passed in as an environment. -/
structure Env where
  catalogue : String → Query → MonthlyDataset

/-- The primitive `ct.catalogue.retrieve`: issues a catalogue query.  It is the one
primitive that emits a retrieval trace event. -/
def catalogue_retrieve (env : Env) (datasetId : String) (q : Query) :
    MonthlyDataset × List TraceEvent :=
  (env.catalogue datasetId q, [TraceEvent.retrieveCall datasetId q])

/-- Modelled from the spec: `ct.cube.average(cube, dim=time)` computes
the temporal mean of the dataset — a 2-D grid whose value at each
coordinate is the mean over the month axis. -/
def cube_average_time (cube : MonthlyDataset) : AnnualMeanGrid :=
  { latMin := cube.latMin
    latMax := cube.latMax
    lonMin := cube.lonMin
    lonMax := cube.lonMax
    val := fun lat lon =>
      (cube.months.map (fun m => cube.val lat lon m)).sum /
        (cube.months.length : ℚ) }

/-- Modelled from the spec: `ct.geo.extract_point(cube, lon=lon, lat=lat)`
fails with `OutOfBoundsError` when the location falls outside the spatial
extent of the dataset, and otherwise extracts the series of one (month,
value) pair per month of the dataset, in the order of the month axis. -/
def extract_point (cube : MonthlyDataset) (lon lat : ℚ) :
    Except ToolboxError PointSeries :=
  if lat < cube.latMin ∨ cube.latMax < lat ∨ lon < cube.lonMin ∨ cube.lonMax < lon then
    Except.error ToolboxError.outOfBounds
  else
    Except.ok ⟨cube.months.map (fun m => (m, cube.val lat lon m))⟩

/-- The primitive `ct.chart.line`: builds a line chart figure over the series. -/
def chart_line (s : PointSeries) : Figure := ⟨s⟩

/-- The click location dictionary delivered by the map click event:
a string-keyed mapping, accessed by subscripting. -/
def ClickLoc : Type := List (String × ℚ)

/-- Python dictionary subscripting `loc[k]`: returns the value when the
key is present and raises `KeyError k` otherwise. -/
def getKey (loc : ClickLoc) (k : String) : Except ToolboxError ℚ :=
  match List.lookup k loc with
  | some v => Except.ok v
  | none => Except.error (ToolboxError.keyError k)

/-- The click location produced by the rendering service for a click at
(lat, lon): a mapping holding both keys. -/
def mkLoc (lat lon : ℚ) : ClickLoc := [("lat", lat), ("lon", lon)]

/-- The livemap returned by `ct.livemap.plot(grid, click_kwargs=d)`:
the rendered annual-mean layer together with the dataset bound to the
click handler via `click_kwargs` (the single entry of the kwargs
dictionary built by the application function). -/
structure Livemap where
  layer : AnnualMeanGrid
  click_kwargs : MonthlyDataset

/-- The primitive `ct.livemap.plot`. -/
def livemap_plot (grid : AnnualMeanGrid) (kwargs : MonthlyDataset) : Livemap :=
  ⟨grid, kwargs⟩

/-- The twelve month strings listed literally in both retrieval queries. -/
def monthStrings : List String :=
  ["01", "02", "03", "04", "05", "06", "07", "08", "09", "10", "11", "12"]

/-- The month coordinates 1..12 of a complete monthly dataset. -/
def monthNumbers : List Nat := [1, 2, 3, 4, 5, 6, 7, 8, 9, 10, 11, 12]

/-- The catalogue dataset id used by both applications. -/
def era5_monthly_id : String := "reanalysis-era5-single-levels-monthly-means"

/-- Modelled from the spec: the collaborator contract of the
DataRetrievalClient — a retrieval requesting the twelve months returns a
complete dataset whose month axis is exactly 1..12 (no partial dataset
is ever exposed). -/
def HonorsQuery (env : Env) : Prop :=
  ∀ datasetId q, q.month = monthStrings →
    (env.catalogue datasetId q).months = monthNumbers

/-- The query dictionary built by `application` in `Ctrl_F_CDS_toolbox.py`,
field for field. -/
def temp_query (year : Int) : Query :=
  { product_type := "monthly_averaged_reanalysis"
    vars := ["2m_temperature"]
    year := year
    month := monthStrings
    time := "00:00" }

/-- The query dictionary built by `application` in
`Ctrl_F_Precipitation.py`, field for field. -/
def precip_query (year : Int) : Query :=
  { product_type := "monthly_averaged_reanalysis"
    vars := ["total_precipitation"]
    year := year
    month := monthStrings
    time := "00:00" }

/-- Function `plot_time_series` of `Ctrl_F_CDS_toolbox.py`: reads `lat` and `lon`
from the clicked location, extracts the point series from the monthly
temperature dataset passed in from the parent, and charts it.  The trace
component records every retrieval call made on the way (there is none in
the source body). -/
def plot_time_series_temp (location : ClickLoc)
    (monthly_temperature : MonthlyDataset) :
    Except ToolboxError Figure × List TraceEvent :=
  match getKey location "lat" with
  | Except.error e => (Except.error e, [])
  | Except.ok lat =>
    match getKey location "lon" with
    | Except.error e => (Except.error e, [])
    | Except.ok lon =>
      match extract_point monthly_temperature lon lat with
      | Except.error e => (Except.error e, [])
      | Except.ok data_sel => (Except.ok (chart_line data_sel), [])

/-- Function `plot_time_series` of `Ctrl_F_Precipitation.py`: identical body, the
dataset parameter is the monthly precipitation dataset. -/
def plot_time_series_precip (location : ClickLoc)
    (monthly_precipitation : MonthlyDataset) :
    Except ToolboxError Figure × List TraceEvent :=
  match getKey location "lat" with
  | Except.error e => (Except.error e, [])
  | Except.ok lat =>
    match getKey location "lon" with
    | Except.error e => (Except.error e, [])
    | Except.ok lon =>
      match extract_point monthly_precipitation lon lat with
      | Except.error e => (Except.error e, [])
      | Except.ok data_sel => (Except.ok (chart_line data_sel), [])

/-- Function `application` of `Ctrl_F_CDS_toolbox.py`: retrieves the monthly
temperature data for the selected year, averages it over time, and plots
the mean as a livemap with the retrieved dataset bound as the click
kwargs.  The trace lists the retrieval calls issued, in order. -/
def application_temp (env : Env) (year : Int) : Livemap × List TraceEvent :=
  let r := catalogue_retrieve env era5_monthly_id (temp_query year)
  let monthly_temperature_data := r.1
  let mean_annual_temperature := cube_average_time monthly_temperature_data
  let child_kwargs_dict := monthly_temperature_data
  (livemap_plot mean_annual_temperature child_kwargs_dict, r.2)

/-- Function `application` of `Ctrl_F_Precipitation.py`: same structure over the
total precipitation variable. -/
def application_precip (env : Env) (year : Int) : Livemap × List TraceEvent :=
  let r := catalogue_retrieve env era5_monthly_id (precip_query year)
  let monthly_precipitation_data := r.1
  let mean_annual_precipitation := cube_average_time monthly_precipitation_data
  let child_kwargs_dict := monthly_precipitation_data
  (livemap_plot mean_annual_precipitation child_kwargs_dict, r.2)

/-- The dropdown values declared by `ct.input.dropdown` in both files. -/
def dropdown_values : List Int := [2020, 2021, 2022, 2023]

/-- The user-facing configuration declared by the decorators of one
application: title, fullscreen flag, layout alignment, dropdown values
and label. -/
structure AppConfig where
  title : String
  fullscreen : Bool
  output_align : String
  values : List Int
  label : String
deriving DecidableEq

/-- The configuration declared in `Ctrl_F_CDS_toolbox.py`. -/
def temp_config : AppConfig :=
  { title := "Ctrl-F"
    fullscreen := true
    output_align := "bottom"
    values := dropdown_values
    label := "Year" }

/-- The configuration declared in `Ctrl_F_Precipitation.py`. -/
def precip_config : AppConfig :=
  { title := "Ctrl F - Precipitation"
    fullscreen := true
    output_align := "bottom"
    values := dropdown_values
    label := "Year" }

/-- The interactive state of one application instance: the livemap
currently rendered (its layer and the dataset bound to its click
handler). -/
structure AppState where
  rendered : Livemap

/-- Modelled from the spec: the dropdown widget (`ct.input.dropdown`)
constrains the year to its enumerated values, so a year outside them is
rejected at the input boundary with `InvalidSelectionError` and the
application function is never entered; a valid year runs the application
function of `Ctrl_F_CDS_toolbox.py`.  The trace lists the retrieval
calls issued by the whole selection. -/
def onYearSelected_temp (env : Env) (year : Int) :
    Except SelectionError AppState × List TraceEvent :=
  if year ∈ dropdown_values then
    let r := application_temp env year
    (Except.ok ⟨r.1⟩, r.2)
  else
    (Except.error SelectionError.invalidSelectionError, [])

/-- One step of the session: a valid selection replaces the rendered
state wholesale, a rejected selection leaves it unchanged. -/
def step_temp (env : Env) (st : Option AppState) (year : Int) :
    Option AppState × List TraceEvent :=
  match onYearSelected_temp env year with
  | (Except.ok s, ev) => (some s, ev)
  | (Except.error _, ev) => (st, ev)

/-- A click on the rendered map: the framework invokes the child
function on the click location and the `click_kwargs` dataset of the
currently rendered livemap.  The map state itself is not modified by a
click. -/
def clickOnMap (st : AppState) (loc : ClickLoc) :
    AppState × (Except ToolboxError Figure × List TraceEvent) :=
  (st, plot_time_series_temp loc st.rendered.click_kwargs)

/-- In-bounds predicate matching the extent test of `extract_point`. -/
def InBounds (cube : MonthlyDataset) (lat lon : ℚ) : Prop :=
  cube.latMin ≤ lat ∧ lat ≤ cube.latMax ∧ cube.lonMin ≤ lon ∧ lon ≤ cube.lonMax

instance (cube : MonthlyDataset) (lat lon : ℚ) : Decidable (InBounds cube lat lon) :=
  inferInstanceAs (Decidable (_ ∧ _ ∧ _ ∧ _))

/-- Modelled from the spec: the query of the generalized
ParameterizedMapApplication, parameterized by the catalogue variable
identifier. -/
def generic_query (varId : String) (year : Int) : Query :=
  { product_type := "monthly_averaged_reanalysis"
    vars := [varId]
    year := year
    month := monthStrings
    time := "00:00" }

/-- Modelled from the spec: the generalized ParameterizedMapApplication
— on a year selection, retrieve the monthly dataset for the variable and
year, compute the annual mean, and render the map with the retrieved
dataset bound to the click handler. -/
def generic_application (varId : String) (env : Env) (year : Int) :
    Livemap × List TraceEvent :=
  let r := catalogue_retrieve env era5_monthly_id (generic_query varId year)
  (livemap_plot (cube_average_time r.1) r.1, r.2)

/-- A concrete test dataset for one year: global extent, all twelve
months, and a value that depends on coordinate, month and year. -/
def testDataset (y : Int) : MonthlyDataset :=
  { latMin := -90
    latMax := 90
    lonMin := -180
    lonMax := 180
    months := monthNumbers
    val := fun lat lon m => lat + lon + (m : ℚ) + (y : ℚ) }

/-- A concrete test catalogue: returns, for any query, the test dataset
of the requested year. -/
def testEnv : Env := ⟨fun _ q => testDataset q.year⟩

/-- The trace of the child function is empty in every branch: its body
calls no retrieval primitive. -/
theorem plot_time_series_temp_trace_nil (loc : ClickLoc) (d : MonthlyDataset) :
    (plot_time_series_temp loc d).2 = [] := by
  unfold plot_time_series_temp
  repeat' first | rfl | split

/-- C1: For every click event, the drill-down issues no data retrieval
call — its trace is empty — and the figure it produces is computed by
`plot_time_series` on exactly the dataset retrieved by the application
function for the currently displayed map and bound via `click_kwargs`,
so a click causes no second catalogue query. -/
theorem C1_click_issues_no_retrieval (env : Env) (year : Int) (loc : ClickLoc) :
    (clickOnMap ⟨(application_temp env year).1⟩ loc).2.2 = [] ∧
    (application_temp env year).1.click_kwargs =
      env.catalogue era5_monthly_id (temp_query year) ∧
    (clickOnMap ⟨(application_temp env year).1⟩ loc).2.1 =
      (plot_time_series_temp loc
        (env.catalogue era5_monthly_id (temp_query year))).1 := by
  refine ⟨?_, rfl, rfl⟩
  exact plot_time_series_temp_trace_nil loc _

/-- C4: For every retrieved dataset, the grid rendered on the map equals
the time average of that dataset: at every coordinate it is the sum of
the monthly values divided by the number of months (a 2-D latitude and
longitude grid), and the dataset bound onward to the click handler is
the retrieved dataset itself, unmodified; on every year change the layer
is recomputed from the dataset newly retrieved for that year. -/
theorem C4_layer_is_time_average (env : Env) (year : Int) :
    (application_temp env year).1.layer =
      cube_average_time (env.catalogue era5_monthly_id (temp_query year)) ∧
    (∀ lat lon,
      (application_temp env year).1.layer.val lat lon =
        ((env.catalogue era5_monthly_id (temp_query year)).months.map
            (fun m =>
              (env.catalogue era5_monthly_id (temp_query year)).val lat lon m)).sum /
          (((env.catalogue era5_monthly_id (temp_query year)).months.length : ℚ))) ∧
    (application_temp env year).1.click_kwargs =
      env.catalogue era5_monthly_id (temp_query year) :=
  ⟨rfl, fun _ _ => rfl, rfl⟩

/-- C5: For every integer year outside the dropdown values, the
selection fails with the invalid-selection error and the trace is empty:
no catalogue query is issued for that year. -/
theorem C5_invalid_year_rejected (env : Env) (y : Int)
    (h : y ∉ dropdown_values) :
    onYearSelected_temp env y =
      (Except.error SelectionError.invalidSelectionError, []) := by
  unfold onYearSelected_temp
  rw [if_neg h]

/-- C5 witness: selecting 2019 is rejected with no retrieval call. -/
theorem C5_invalid_year_rejected_witness :
    onYearSelected_temp testEnv 2019 =
      (Except.error SelectionError.invalidSelectionError, []) :=
  C5_invalid_year_rejected testEnv 2019 (by decide)

/-- C7: For every selected year, the retrieval trace of each application
function is exactly one call carrying the configured parameters
verbatim: the ERA5 monthly-means dataset id, product type
monthly_averaged_reanalysis, the variable of that instance, the selected
year, all twelve months 01 through 12, at time 00:00. -/
theorem C7_query_passed_verbatim (env : Env) (y : Int) :
    (application_temp env y).2 =
      [TraceEvent.retrieveCall "reanalysis-era5-single-levels-monthly-means"
        { product_type := "monthly_averaged_reanalysis"
          vars := ["2m_temperature"]
          year := y
          month := ["01", "02", "03", "04", "05", "06",
                    "07", "08", "09", "10", "11", "12"]
          time := "00:00" }] ∧
    (application_precip env y).2 =
      [TraceEvent.retrieveCall "reanalysis-era5-single-levels-monthly-means"
        { product_type := "monthly_averaged_reanalysis"
          vars := ["total_precipitation"]
          year := y
          month := ["01", "02", "03", "04", "05", "06",
                    "07", "08", "09", "10", "11", "12"]
          time := "00:00" }] :=
  ⟨rfl, rfl⟩

/-- C9: The two scripts are instances of one parameterized program:
each application function coincides with the generalized application at
its own variable identifier, the two child functions are the same
function, the two queries differ only in the variable list, and the two
declared configurations agree on everything except the title. -/
theorem C9_two_instances_of_one_program :
    (∀ env y, application_temp env y =
      generic_application "2m_temperature" env y) ∧
    (∀ env y, application_precip env y =
      generic_application "total_precipitation" env y) ∧
    (∀ loc d, plot_time_series_temp loc d = plot_time_series_precip loc d) ∧
    (∀ y, temp_query y = generic_query "2m_temperature" y) ∧
    (∀ y, precip_query y = generic_query "total_precipitation" y) ∧
    temp_config = { precip_config with title := temp_config.title } :=
  ⟨fun _ _ => rfl, fun _ _ => rfl, fun _ _ => rfl,
   fun _ => rfl, fun _ => rfl, rfl⟩

/-- A valid selection replaces the session state with the freshly
computed application result, whatever the previous state was. -/
theorem step_temp_valid (env : Env) (st : Option AppState) (y : Int)
    (hy : y ∈ dropdown_values) :
    step_temp env st y =
      (some ⟨(application_temp env y).1⟩, (application_temp env y).2) := by
  unfold step_temp onYearSelected_temp
  rw [if_pos hy]

/-- On a well-formed click location the child function reduces to
extraction followed by charting. -/
theorem plot_time_series_temp_mkLoc (d : MonthlyDataset) (lat lon : ℚ) :
    plot_time_series_temp (mkLoc lat lon) d =
      (Except.map chart_line (extract_point d lon lat), []) := by
  have h : ∀ r : Except ToolboxError PointSeries,
      (match r with
        | Except.error e =>
          ((Except.error e : Except ToolboxError Figure), ([] : List TraceEvent))
        | Except.ok data_sel => (Except.ok (chart_line data_sel), [])) =
        (Except.map chart_line r, []) := by
    intro r
    cases r <;> rfl
  exact h (extract_point d lon lat)

/-- A click inside the spatial extent charts the series of one pair per
month of the dataset, in the order of the month axis. -/
theorem plot_ok_of_inbounds (d : MonthlyDataset) (lat lon : ℚ)
    (hin : InBounds d lat lon) :
    (plot_time_series_temp (mkLoc lat lon) d).1 =
      Except.ok ⟨⟨d.months.map (fun m => (m, d.val lat lon m))⟩⟩ := by
  have hex : extract_point d lon lat =
      Except.ok ⟨d.months.map (fun m => (m, d.val lat lon m))⟩ := by
    unfold extract_point
    rw [if_neg]
    simp only [not_or, not_lt]
    exact ⟨hin.1, hin.2.1, hin.2.2.1, hin.2.2.2⟩
  rw [plot_time_series_temp_mkLoc, hex]
  rfl

/-- A click outside the spatial extent fails with the out-of-bounds
error. -/
theorem plot_err_of_out_of_bounds (d : MonthlyDataset) (lat lon : ℚ)
    (hout : lat < d.latMin ∨ d.latMax < lat ∨ lon < d.lonMin ∨ d.lonMax < lon) :
    (plot_time_series_temp (mkLoc lat lon) d).1 =
      Except.error ToolboxError.outOfBounds := by
  have hex : extract_point d lon lat = Except.error ToolboxError.outOfBounds := by
    unfold extract_point
    rw [if_pos hout]
  rw [plot_time_series_temp_mkLoc, hex]
  rfl

/-- C2: Freshness — after selecting year y1 and then year y2, the
session state is exactly the application result for y2; the dataset
bound to the click handler is the one retrieved for y2, a click charts
from that dataset, and whenever the catalogue answers for y1 and y2
differ, the bound dataset is not the y1 dataset. -/
theorem C2_freshness_last_selection_wins (env : Env) (y1 y2 : Int)
    (h1 : y1 ∈ dropdown_values) (h2 : y2 ∈ dropdown_values) (lat lon : ℚ) :
    (step_temp env (step_temp env none y1).1 y2).1 =
      some ⟨(application_temp env y2).1⟩ ∧
    (∀ st, (step_temp env (step_temp env none y1).1 y2).1 = some st →
      st.rendered.click_kwargs =
        env.catalogue era5_monthly_id (temp_query y2) ∧
      (clickOnMap st (mkLoc lat lon)).2.1 =
        (plot_time_series_temp (mkLoc lat lon)
          (env.catalogue era5_monthly_id (temp_query y2))).1) ∧
    (env.catalogue era5_monthly_id (temp_query y1) ≠
        env.catalogue era5_monthly_id (temp_query y2) →
      ∀ st, (step_temp env (step_temp env none y1).1 y2).1 = some st →
        st.rendered.click_kwargs ≠
          env.catalogue era5_monthly_id (temp_query y1)) := by
  have e2 := step_temp_valid env (step_temp env none y1).1 y2 h2
  refine ⟨by rw [e2], ?_, ?_⟩
  · intro st hst
    rw [e2] at hst
    injection hst with h
    subst h
    exact ⟨rfl, rfl⟩
  · intro hne st hst
    rw [e2] at hst
    injection hst with h
    subst h
    intro hEq
    exact hne hEq.symm

/-- C2 witness: selecting 2020 and then 2021 leaves the session in the
state computed for 2021. -/
theorem C2_freshness_witness :
    (step_temp testEnv (step_temp testEnv none 2020).1 2021).1 =
      some ⟨(application_temp testEnv 2021).1⟩ :=
  (C2_freshness_last_selection_wins testEnv 2020 2021
    (by decide) (by decide) 0 0).1

/-- C3: For every year in the allowed set and every in-bounds click
location, selecting the year and then clicking produces a series of
exactly 12 (month, value) pairs ordered by month 1 through 12. -/
theorem C3_click_yields_twelve_ordered_months (env : Env)
    (hq : HonorsQuery env) (y : Int) (hy : y ∈ dropdown_values)
    (lat lon : ℚ)
    (hin : InBounds (env.catalogue era5_monthly_id (temp_query y)) lat lon) :
    ∀ st, (step_temp env none y).1 = some st →
      ∃ fig, (clickOnMap st (mkLoc lat lon)).2.1 = Except.ok fig ∧
        fig.series.points.map Prod.fst = monthNumbers ∧
        fig.series.points.length = 12 := by
  intro st hst
  rw [step_temp_valid env none y hy] at hst
  injection hst with h
  subst h
  have hmonths : (env.catalogue era5_monthly_id (temp_query y)).months =
      monthNumbers := hq era5_monthly_id (temp_query y) rfl
  refine ⟨⟨⟨(env.catalogue era5_monthly_id (temp_query y)).months.map
      (fun m => (m, (env.catalogue era5_monthly_id (temp_query y)).val lat lon m))⟩⟩,
    plot_ok_of_inbounds _ lat lon hin, ?_, ?_⟩
  · rw [List.map_map]
    have hid : ((env.catalogue era5_monthly_id (temp_query y)).months.map
        (Prod.fst ∘ fun m =>
          (m, (env.catalogue era5_monthly_id (temp_query y)).val lat lon m))) =
        (env.catalogue era5_monthly_id (temp_query y)).months :=
      List.map_id (env.catalogue era5_monthly_id (temp_query y)).months
    rw [hid, hmonths]
  · rw [List.length_map, hmonths]
    rfl

/-- C3 witness: with the test catalogue, selecting 2020 and clicking at
(lat 1, lon 2) yields a 12-point series ordered by month. -/
theorem C3_click_yields_twelve_ordered_months_witness :
    ∃ fig, (clickOnMap ⟨(application_temp testEnv 2020).1⟩ (mkLoc 1 2)).2.1 =
        Except.ok fig ∧
      fig.series.points.map Prod.fst = monthNumbers ∧
      fig.series.points.length = 12 :=
  C3_click_yields_twelve_ordered_months testEnv (fun _ _ _ => rfl) 2020
    (by decide) 1 2 (by decide) ⟨(application_temp testEnv 2020).1⟩
    (by rw [step_temp_valid testEnv none 2020 (by decide)])

/-- C6: After a valid year selection, a click at a location outside the
spatial extent of the current dataset fails with the out-of-bounds
error, and the rendered map state is left unchanged by the failed
click. -/
theorem C6_out_of_bounds_click_fails (env : Env) (y : Int)
    (hy : y ∈ dropdown_values) (lat lon : ℚ)
    (hout : lat < (env.catalogue era5_monthly_id (temp_query y)).latMin ∨
      (env.catalogue era5_monthly_id (temp_query y)).latMax < lat ∨
      lon < (env.catalogue era5_monthly_id (temp_query y)).lonMin ∨
      (env.catalogue era5_monthly_id (temp_query y)).lonMax < lon) :
    ∀ st, (step_temp env none y).1 = some st →
      (clickOnMap st (mkLoc lat lon)).2.1 =
        Except.error ToolboxError.outOfBounds ∧
      (clickOnMap st (mkLoc lat lon)).1 = st := by
  intro st hst
  rw [step_temp_valid env none y hy] at hst
  injection hst with h
  subst h
  exact ⟨plot_err_of_out_of_bounds _ lat lon hout, rfl⟩

/-- C6 witness: with the test catalogue, after selecting 2020 a click at
latitude 100 (outside the extent) fails out-of-bounds and keeps the
state. -/
theorem C6_out_of_bounds_click_fails_witness :
    (clickOnMap ⟨(application_temp testEnv 2020).1⟩ (mkLoc 100 0)).2.1 =
      Except.error ToolboxError.outOfBounds ∧
    (clickOnMap ⟨(application_temp testEnv 2020).1⟩ (mkLoc 100 0)).1 =
      ⟨(application_temp testEnv 2020).1⟩ :=
  C6_out_of_bounds_click_fails testEnv 2020 (by decide) 100 0 (by decide)
    ⟨(application_temp testEnv 2020).1⟩
    (by rw [step_temp_valid testEnv none 2020 (by decide)])

/-- C8: Idempotence — selecting the same valid year twice in succession
yields the same session state, the rendered layer is the time average of
the catalogue answer for that year, and any catalogue agreeing on that
one query yields the same layer: the grid is a function of the year and
the configured variable only. -/
theorem C8_reselect_same_year_same_grid (env : Env) (y : Int)
    (hy : y ∈ dropdown_values) :
    (step_temp env (step_temp env none y).1 y).1 = (step_temp env none y).1 ∧
    (∀ st, (step_temp env none y).1 = some st →
      st.rendered.layer =
        cube_average_time (env.catalogue era5_monthly_id (temp_query y))) ∧
    (∀ env2 : Env,
      env2.catalogue era5_monthly_id (temp_query y) =
        env.catalogue era5_monthly_id (temp_query y) →
      (application_temp env2 y).1.layer = (application_temp env y).1.layer) := by
  refine ⟨?_, ?_, ?_⟩
  · rw [step_temp_valid env _ y hy, step_temp_valid env none y hy]
  · intro st hst
    rw [step_temp_valid env none y hy] at hst
    injection hst with h
    subst h
    rfl
  · intro env2 h
    exact congrArg cube_average_time h

/-- C8 witness: re-selecting 2020 with the test catalogue reproduces the
same state. -/
theorem C8_reselect_same_year_same_grid_witness :
    (step_temp testEnv (step_temp testEnv none 2020).1 2020).1 =
      (step_temp testEnv none 2020).1 :=
  (C8_reselect_same_year_same_grid testEnv 2020 (by decide)).1

/-- C10: The child function requires the location mapping to hold both
the key lat and the key lon: a location missing lat fails with KeyError
lat, one holding lat but missing lon fails with KeyError lon, each
before any extraction or charting; when both keys are present the result
is exactly extraction followed by charting, so under the precondition
the function is total up to those collaborators. -/
theorem C10_location_requires_lat_lon (loc : ClickLoc) (d : MonthlyDataset) :
    (List.lookup "lat" loc = none →
      plot_time_series_temp loc d =
        (Except.error (ToolboxError.keyError "lat"), [])) ∧
    (∀ lat, List.lookup "lat" loc = some lat →
      List.lookup "lon" loc = none →
      plot_time_series_temp loc d =
        (Except.error (ToolboxError.keyError "lon"), [])) ∧
    (∀ lat lon, List.lookup "lat" loc = some lat →
      List.lookup "lon" loc = some lon →
      plot_time_series_temp loc d =
        (Except.map chart_line (extract_point d lon lat), [])) := by
  refine ⟨?_, ?_, ?_⟩
  · intro h
    unfold plot_time_series_temp getKey
    rw [h]
  · intro lat h1 h2
    unfold plot_time_series_temp getKey
    rw [h1, h2]
  · intro lat lon h1 h2
    unfold plot_time_series_temp getKey
    rw [h1, h2]
    have h : ∀ r : Except ToolboxError PointSeries,
        (match r with
          | Except.error e =>
            ((Except.error e : Except ToolboxError Figure), ([] : List TraceEvent))
          | Except.ok data_sel => (Except.ok (chart_line data_sel), [])) =
          (Except.map chart_line r, []) := by
      intro r
      cases r <;> rfl
    exact h (extract_point d lon lat)

/-- C10 witness: an empty location fails on lat, a lat-only location
fails on lon, and a location with both keys charts the extraction. -/
theorem C10_location_requires_lat_lon_witness :
    plot_time_series_temp [] (testDataset 2020) =
      (Except.error (ToolboxError.keyError "lat"), []) ∧
    plot_time_series_temp [("lat", 1)] (testDataset 2020) =
      (Except.error (ToolboxError.keyError "lon"), []) ∧
    plot_time_series_temp (mkLoc 1 2) (testDataset 2020) =
      (Except.map chart_line (extract_point (testDataset 2020) 2 1), []) :=
  ⟨(C10_location_requires_lat_lon [] (testDataset 2020)).1 rfl,
   (C10_location_requires_lat_lon [("lat", 1)] (testDataset 2020)).2.1 1 rfl rfl,
   (C10_location_requires_lat_lon (mkLoc 1 2) (testDataset 2020)).2.2 1 2 rfl rfl⟩
